import Mathlib

/-!
Verification of the window-capture utility `tabCombiner.py` (Linux/X11 path).

The development shallowly embeds the parts of the program the properties
talk about:

* `getWindows` / `getWindowsList` embed the recursive window-tree walk of
  `WindowGrabber.get_window_list`, including its per-child exception
  handling (`attrsFail`, `queryFail` flags stand for the platform calls
  raising) and its filter condition;
* `get_window_list` embeds the outer method: sorting by title, caching the
  result, and returning the cache when the enumeration pass raises (the
  pass outcome is an `Option XWindow`: `none` models the platform raising);
* `reparent_window_run` embeds `WindowGrabber.reparent_window` as the list
  of X requests it issues plus what it propagates and logs;
* `add_window` embeds the duplicate scan of `TabWindow.add_window` over the
  tab widget's `WindowContainer` tabs (each tab is identified by the
  captured window id);
* `refresh_window_list` embeds the title-set comparison guarding the menu
  rebuild in `TabWindow.refresh_window_list`;
* `handleTabClose` embeds `DraggableTabWidget.handleTabClose` as a state
  transition on the tab list together with the trace of operations it
  performs (X requests, `removeTab`, `deleteLater`) and its logging.

Exceptions of the platform are modelled by explicit failure parameters;
a Python method that catches every exception is embedded as a total
function whose `raised` component records what it would propagate.
-/

/-- The possible results of `get_wm_name` on an X window as the Python
code distinguishes them: absent (`None`), a Python `str`, or a non-`str`
value such as `bytes`. -/
inductive WmName where
  | absent : WmName
  | str : String → WmName
  | bytes : List Nat → WmName
deriving DecidableEq

/-- An X window as seen through the calls `get_window_list` makes: its id,
whether the calls inside the per-child `try` block raise for it
(`attrsFail`), whether its map state is `IsViewable`, its WM_CLASS pair
(`None` or `(instance, class)`), its WM_NAME, whether `query_tree` on it
raises (`queryFail`), and its children in the window tree. -/
inductive XWindow where
  | mk (wid : Nat) (attrsFail : Bool) (viewable : Bool)
       (wmClass : Option (String × String)) (wmName : WmName)
       (queryFail : Bool) (children : List XWindow)

def XWindow.wid : XWindow → Nat
  | .mk i _ _ _ _ _ _ => i

def XWindow.attrsFail : XWindow → Bool
  | .mk _ a _ _ _ _ _ => a

def XWindow.viewable : XWindow → Bool
  | .mk _ _ v _ _ _ _ => v

def XWindow.wmClass : XWindow → Option (String × String)
  | .mk _ _ _ c _ _ _ => c

def XWindow.wmName : XWindow → WmName
  | .mk _ _ _ _ n _ _ => n

def XWindow.queryFail : XWindow → Bool
  | .mk _ _ _ _ _ q _ => q

def XWindow.children : XWindow → List XWindow
  | .mk _ _ _ _ _ _ ch => ch

/-- Python truthiness of the `win_name` value (`None`, `""` and `b""` are
falsy). -/
def truthyName : WmName → Bool
  | .absent => false
  | .str s => !s.isEmpty
  | .bytes b => !b.isEmpty

/-- `isinstance(win_name, str)`. -/
def isStrName : WmName → Bool
  | .str _ => true
  | _ => false

/-- The underlying string of a `str` WM_NAME (irrelevant default
otherwise; it is only read under `isStrName`). -/
def nameStr : WmName → String
  | .str s => s
  | _ => ""

/-- Python truthiness of `s.strip()`: the stripped string is non-empty
exactly when `s` contains a non-whitespace character. -/
def strippedTruthy (s : String) : Bool := s.data.any (fun c => !c.isWhitespace)

/-- The filter condition of `get_window_list` on a viewable child:
`win_class and win_class[1] != "tabCombiner" and win_name and
isinstance(win_name, str) and win_name.strip()`. -/
def keepWindow (wmClass : Option (String × String)) (wmName : WmName) : Bool :=
  (match wmClass with
   | Option.none => false
   | Option.some (_, cls) => cls != "tabCombiner")
  && truthyName wmName && isStrName wmName && strippedTruthy (nameStr wmName)

/-- The window record `get_window_list` builds: `{'id': ..., 'title': ...}`
(the `'window'` entry, the live X resource, is not part of the data
model). -/
structure WinDesc where
  id : Nat
  title : String
deriving DecidableEq

mutual

/-- The inner `get_windows(window)` of `get_window_list`: query the
window's children (an empty list if `query_tree` raises), and for each
child append its descriptor when it is viewable and passes the filter,
then the descriptors of its subtree; a child for which the platform calls
raise (`attrsFail`) is skipped together with its subtree (`continue`). -/
def getWindows : XWindow → List WinDesc
  | .mk _ _ _ _ _ qf ch => if qf then [] else getWindowsList ch

def getWindowsList : List XWindow → List WinDesc
  | [] => []
  | child :: rest =>
      (if child.attrsFail then []
       else (if child.viewable && keepWindow child.wmClass child.wmName
             then [⟨child.wid, nameStr child.wmName⟩] else [])
            ++ getWindows child)
      ++ getWindowsList rest

end

mutual

/-- All nodes of a window tree: the window itself and every descendant. -/
def treeNodes : XWindow → List XWindow
  | .mk i a v c n q ch => XWindow.mk i a v c n q ch :: treeNodesList ch

def treeNodesList : List XWindow → List XWindow
  | [] => []
  | w :: ws => treeNodes w ++ treeNodesList ws

end

/-- The sort key relation of `windows.sort(key=lambda x: x['title'])`:
nondecreasing titles. -/
def titleLe (a b : WinDesc) : Prop := a.title ≤ b.title

instance : DecidableRel titleLe := fun a b => inferInstanceAs (Decidable (a.title ≤ b.title))

instance : IsTotal WinDesc titleLe := ⟨fun a b => le_total a.title b.title⟩

instance : IsTrans WinDesc titleLe := ⟨fun _ _ _ hab hbc => le_trans hab hbc⟩

/-- `windows.sort(key=lambda x: x['title'])`: a stable sort by title. -/
def sortByTitle (l : List WinDesc) : List WinDesc := List.insertionSort titleLe l

/-- The mutable state of a `WindowGrabber`: `self._cached_windows`. -/
structure GrabberState where
  cachedWindows : List WinDesc

/-- `WindowGrabber.__init__` sets `self._cached_windows = []`. -/
def initGrabber : GrabberState := ⟨[]⟩

/-- `WindowGrabber.get_window_list` on Linux. The enumeration pass is
`rootQuery`: `some root` when the platform delivers the window tree,
`none` when the pass raises. On success the walked, title-sorted list is
returned and cached; on failure the method prints a message and returns
the cached list unchanged. The function is total: no exception reaches
the caller. -/
def get_window_list (st : GrabberState) (rootQuery : Option XWindow) :
    List WinDesc × GrabberState :=
  match rootQuery with
  | Option.none => (st.cachedWindows, st)
  | Option.some root =>
      let ws := sortByTitle (getWindows root)
      (ws, ⟨ws⟩)

/-- A sequence of enumeration passes threaded through the grabber state. -/
def runPasses : GrabberState → List (Option XWindow) → GrabberState
  | st, [] => st
  | st, q :: rest => runPasses (get_window_list st q).2 rest

/-- The root delivered by the last successful pass of a history, if any. -/
def lastSuccessRoot : List (Option XWindow) → Option XWindow
  | [] => Option.none
  | q :: rest =>
      match lastSuccessRoot rest with
      | Option.some r => Option.some r
      | Option.none => q

/-- A request issued to the X server. -/
inductive XRequest where
  | reparent (windowId parentId : Nat) (x y : Int)
  | mapWin (windowId : Nat)
  | sync
deriving DecidableEq

/-- What a guarded platform operation produced: the X requests it issued,
the exception it propagated to its caller (if any), and the lines it
printed. -/
structure OpResult where
  requests : List XRequest
  raised : Option String
  log : List String

/-- The X calls `WindowGrabber.reparent_window` makes in order:
`window.reparent(container, 0, 0)` then `self.display.sync()`. -/
def reparentSteps (windowId containerId : Nat) : List XRequest :=
  [XRequest.reparent windowId containerId 0 0, XRequest.sync]

/-- `WindowGrabber.reparent_window(window_id, container_id)` on Linux.
`failAt = some (k, msg)` models the `k`-th platform call of the `try`
body raising with message `msg`: the earlier requests were issued, the
exception is caught and printed, and nothing propagates. -/
def reparent_window_run (windowId containerId : Nat)
    (failAt : Option (Fin 2 × String)) : OpResult :=
  match failAt with
  | Option.none => ⟨reparentSteps windowId containerId, Option.none, []⟩
  | Option.some (k, msg) =>
      ⟨(reparentSteps windowId containerId).take k.val, Option.none,
       ["Error reparenting window: " ++ msg]⟩

/-- The outcome of `TabWindow.add_window(window_info)`: the tab list (one
window id per `WindowContainer` tab, in tab order), the index made
current, and whether a new `WindowContainer` was created (i.e. whether a
capture of the window was requested). -/
structure AddResult where
  tabs : List Nat
  currentIndex : Nat
  captured : Bool

/-- The duplicate scan of `add_window`: the index of the first tab whose
`container.window_id` equals the selected id. -/
def findTabIdx (tabs : List Nat) (windowId : Nat) : Option Nat :=
  match tabs with
  | [] => Option.none
  | t :: rest =>
      if t == windowId then Option.some 0
      else (findTabIdx rest windowId).map (· + 1)

/-- `TabWindow.add_window` restricted to its effect on the tab list: if
some tab already holds the window id, show a status message and focus
that tab; otherwise create a `WindowContainer` (the capture), append it
as a new tab and focus it. -/
def add_window (tabs : List Nat) (windowId : Nat) : AddResult :=
  match findTabIdx tabs windowId with
  | Option.some i => ⟨tabs, i, false⟩
  | Option.none => ⟨tabs ++ [windowId], tabs.length, true⟩

/-- The guard of `TabWindow.refresh_window_list`: the set of menu action
texts versus the set of titles of the newly enumerated windows; the
result is whether `update_window_list` is invoked. -/
def refresh_window_list (actionTitles : List String) (newWindows : List WinDesc) : Bool :=
  if actionTitles.toFinset = (newWindows.map (fun w => w.title)).toFinset
  then false else true

/-- An operation `handleTabClose` performs, in order: an X request, the
`removeTab(index)` call, or the `deleteLater()` call on the container. -/
inductive Event where
  | xreq (r : XRequest)
  | removeTabEv (index : Nat)
  | deleteLaterEv (windowId : Nat)
deriving DecidableEq

/-- The outcome of `DraggableTabWidget.handleTabClose`: the tab list
afterwards, the trace of operations performed, the exception propagated
(if any), and the lines printed. -/
structure CloseResult where
  tabs : List Nat
  trace : List Event
  raised : Option String
  log : List String

/-- The X calls restoring a window to the desktop in `handleTabClose`:
`window.reparent(root, 0, 0)`, `window.map()`, `display_obj.sync()`. -/
def restoreSteps (windowId rootId : Nat) : List XRequest :=
  [XRequest.reparent windowId rootId 0 0, XRequest.mapWin windowId, XRequest.sync]

/-- `DraggableTabWidget.handleTabClose(index)` on Linux. Every tab of the
widget is a `WindowContainer`, so `tabs` holds the captured window ids in
tab order. `tabs[index]?` is `self.widget(index)`: for an invalid index
Qt yields no widget, the `isinstance` check fails, `removeTab` is a
no-op and `widget.deleteLater()` raises an `AttributeError`, which the
broad `except` catches and prints. For a valid index, `failAt = some
(k, msg)` models the `k`-th restore call raising: the earlier requests
were issued, the tab is not removed, and the exception is caught and
printed. On success the three restore requests are issued, then the tab
is removed and the container deleted. -/
def handleTabClose (tabs : List Nat) (index : Nat) (rootId : Nat)
    (failAt : Option (Fin 3 × String)) : CloseResult :=
  match tabs[index]? with
  | Option.none =>
      ⟨tabs, [Event.removeTabEv index], Option.none,
       ["Error closing tab: AttributeError"]⟩
  | Option.some windowId =>
      match failAt with
      | Option.some (k, msg) =>
          ⟨tabs, ((restoreSteps windowId rootId).take k.val).map Event.xreq,
           Option.none, ["Error closing tab: " ++ msg]⟩
      | Option.none =>
          ⟨tabs.eraseIdx index,
           (restoreSteps windowId rootId).map Event.xreq
             ++ [Event.removeTabEv index, Event.deleteLaterEv windowId],
           Option.none, []⟩

/-- A window of the tree is the host application's own window when its
WM_CLASS class component is `"tabCombiner"` (the application name set in
`main`). -/
def isHostWindow (w : XWindow) : Bool :=
  match w.wmClass with
  | Option.some (_, cls) => cls == "tabCombiner"
  | Option.none => false

/-- The tree node a returned descriptor was built from: a viewable window
passing the filter, whose id and name the descriptor carries. -/
def originates (x : XWindow) (d : WinDesc) : Prop :=
  x.viewable = true ∧ keepWindow x.wmClass x.wmName = true ∧
    d.id = x.wid ∧ x.wmName = WmName.str d.title

/-- A window passing the filter has a WM_CLASS whose class component is
not `"tabCombiner"`. -/
theorem keepWindow_class {c : Option (String × String)} {n : WmName}
    (h : keepWindow c n = true) :
    ∃ inst cls, c = Option.some (inst, cls) ∧ cls ≠ "tabCombiner" := by
  cases c with
  | none => simp [keepWindow] at h
  | some p =>
    obtain ⟨inst, cls⟩ := p
    refine ⟨inst, cls, rfl, ?_⟩
    simp [keepWindow] at h
    exact h.1.1.1

/-- A window passing the filter has a `str` WM_NAME with a non-whitespace
character. -/
theorem keepWindow_name {c : Option (String × String)} {n : WmName}
    (h : keepWindow c n = true) :
    ∃ s, n = WmName.str s ∧ strippedTruthy s = true := by
  cases n with
  | absent => simp [keepWindow, isStrName] at h
  | str s =>
    refine ⟨s, rfl, ?_⟩
    simp [keepWindow, nameStr] at h
    exact h.2
  | bytes b => simp [keepWindow, isStrName] at h

/-- A string with a non-whitespace character is not the empty string. -/
theorem strippedTruthy_ne_empty {s : String} (h : strippedTruthy s = true) :
    s ≠ "" := by
  intro he
  subst he
  exact absurd h (by decide)

theorem self_mem_treeNodes (w : XWindow) : w ∈ treeNodes w := by
  cases w with
  | mk i a v c n q ch => simp [treeNodes]

mutual

/-- Every descriptor produced by the tree walk under `w` originates from a
node of `w`'s subtree: a viewable window passing the filter whose id and
name the descriptor carries. -/
theorem getWindows_origin : ∀ (w : XWindow) (d : WinDesc), d ∈ getWindows w →
    ∃ x, x ∈ treeNodes w ∧ originates x d
  | .mk i a v c n qf ch => by
    intro d hd
    cases qf with
    | true => simp [getWindows] at hd
    | false =>
      simp only [getWindows, if_neg (by simp : ¬(false = true))] at hd
      obtain ⟨x, hx, ho⟩ := getWindowsList_origin ch d hd
      refine ⟨x, ?_, ho⟩
      simp only [treeNodes, List.mem_cons]
      exact Or.inr hx

theorem getWindowsList_origin : ∀ (ws : List XWindow) (d : WinDesc),
    d ∈ getWindowsList ws → ∃ x, x ∈ treeNodesList ws ∧ originates x d
  | [] => by intro d hd; simp [getWindowsList] at hd
  | child :: rest => by
    intro d hd
    simp only [getWindowsList] at hd
    rcases List.mem_append.mp hd with h | h
    · cases haf : child.attrsFail with
      | true => rw [if_pos haf] at h; simp at h
      | false =>
        rw [if_neg (by simp [haf])] at h
        rcases List.mem_append.mp h with h1 | h1
        · cases hv : child.viewable && keepWindow child.wmClass child.wmName with
          | false => rw [if_neg (by simp [hv])] at h1; simp at h1
          | true =>
            rw [if_pos hv] at h1
            simp only [List.mem_singleton] at h1
            subst h1
            simp only [Bool.and_eq_true] at hv
            obtain ⟨hview, hkeep⟩ := hv
            obtain ⟨s, hs, _⟩ := keepWindow_name hkeep
            refine ⟨child, ?_, hview, hkeep, rfl, ?_⟩
            · simp only [treeNodesList, List.mem_append]
              exact Or.inl (self_mem_treeNodes child)
            · rw [hs]
              simp [nameStr]
        · obtain ⟨x, hx, ho⟩ := getWindows_origin child d h1
          refine ⟨x, ?_, ho⟩
          simp only [treeNodesList, List.mem_append]
          exact Or.inl hx
    · obtain ⟨x, hx, ho⟩ := getWindowsList_origin rest d h
      refine ⟨x, ?_, ho⟩
      simp only [treeNodesList, List.mem_append]
      exact Or.inr hx

end

/-- The cache after a history of passes holds the sorted walk of the last
successful pass, or the starting cache if none succeeded. -/
theorem runPasses_cached : ∀ (qs : List (Option XWindow)) (st : GrabberState),
    (runPasses st qs).cachedWindows =
      (match lastSuccessRoot qs with
       | Option.some r => sortByTitle (getWindows r)
       | Option.none => st.cachedWindows)
  | [], st => by simp [runPasses, lastSuccessRoot]
  | q :: rest, st => by
    have ih := runPasses_cached rest (get_window_list st q).2
    simp only [runPasses, lastSuccessRoot]
    rw [ih]
    cases hls : lastSuccessRoot rest with
    | some r => simp
    | none =>
      cases q with
      | none => simp [get_window_list]
      | some root => simp [get_window_list]

theorem findTabIdx_none_iff (tabs : List Nat) (windowId : Nat) :
    findTabIdx tabs windowId = Option.none ↔ windowId ∉ tabs := by
  induction tabs with
  | nil => simp [findTabIdx]
  | cons t rest ih =>
    by_cases h : t = windowId
    · subst h
      simp [findTabIdx]
    · simp only [findTabIdx, if_neg (by simp [h] : ¬(t == windowId) = true),
        Option.map_eq_none', List.mem_cons]
      rw [ih]
      constructor
      · intro hn hmem
        rcases hmem with h1 | h1
        · exact h h1.symm
        · exact hn h1
      · intro hn
        exact fun h1 => hn (Or.inr h1)

theorem findTabIdx_some_get (tabs : List Nat) (windowId : Nat) :
    ∀ i, findTabIdx tabs windowId = Option.some i →
      tabs[i]? = Option.some windowId := by
  induction tabs with
  | nil => intro i h; simp [findTabIdx] at h
  | cons t rest ih =>
    intro i h
    by_cases ht : t = windowId
    · subst ht
      simp [findTabIdx] at h
      subst h
      simp
    · simp only [findTabIdx, if_neg (by simp [ht] : ¬(t == windowId) = true),
        Option.map_eq_some'] at h
      obtain ⟨j, hj, hi⟩ := h
      subst hi
      simpa using ih j hj

/-- C6: every list returned by a successful call to `get_window_list` is
sorted in nondecreasing order of the descriptors' title field. -/
theorem get_window_list_sorted_by_title (st : GrabberState) (root : XWindow) :
    List.Sorted (fun a b : WinDesc => a.title ≤ b.title)
      (get_window_list st (Option.some root)).1 :=
  List.sorted_insertionSort titleLe (getWindows root)

/-- C3: when the enumeration pass raises, `get_window_list` returns the
list produced by the last successful pass of the whole history (empty if
no pass ever succeeded), leaves the cache unchanged, and, being a total
function, propagates no exception. -/
theorem get_window_list_failure_returns_cache (history : List (Option XWindow)) :
    (get_window_list (runPasses initGrabber history) Option.none).1 =
      (match lastSuccessRoot history with
       | Option.some r => sortByTitle (getWindows r)
       | Option.none => []) ∧
    (get_window_list (runPasses initGrabber history) Option.none).2 =
      runPasses initGrabber history := by
  constructor
  · show (runPasses initGrabber history).cachedWindows = _
    rw [runPasses_cached]
    cases lastSuccessRoot history <;> rfl
  · rfl

/-- C4: adding a window id already present among the tabs leaves the tab
list unchanged, creates no container (no capture), and focuses the first
tab holding that id; and `add_window` preserves distinctness of the tab
ids. -/
theorem add_window_duplicate_noop (tabs : List Nat) (windowId : Nat) :
    (windowId ∈ tabs →
      (add_window tabs windowId).tabs = tabs ∧
      (add_window tabs windowId).captured = false ∧
      (add_window tabs windowId).tabs[(add_window tabs windowId).currentIndex]? =
        Option.some windowId) ∧
    (tabs.Nodup → (add_window tabs windowId).tabs.Nodup) := by
  cases hf : findTabIdx tabs windowId with
  | some i =>
    constructor
    · intro _
      refine ⟨?_, ?_, ?_⟩
      · simp [add_window, hf]
      · simp [add_window, hf]
      · simp only [add_window, hf]
        exact findTabIdx_some_get tabs windowId i hf
    · intro hnd
      simpa [add_window, hf] using hnd
  | none =>
    have hnm : windowId ∉ tabs := (findTabIdx_none_iff tabs windowId).mp hf
    constructor
    · intro hmem
      exact absurd hmem hnm
    · intro hnd
      simp only [add_window, hf]
      simp [List.nodup_append, hnd, hnm]

/-- Witness for C4 at the concrete tab list `[3, 5]` and id `5`. -/
theorem add_window_duplicate_noop_witness :
    (add_window [3, 5] 5).tabs = [3, 5] ∧
    (add_window [3, 5] 5).captured = false ∧
    (add_window [3, 5] 5).tabs.Nodup :=
  ⟨((add_window_duplicate_noop [3, 5] 5).1 (by decide)).1,
   ((add_window_duplicate_noop [3, 5] 5).1 (by decide)).2.1,
   (add_window_duplicate_noop [3, 5] 5).2 (by decide)⟩

/-- C7: the refresh guard invokes `update_window_list` exactly when the
set of titles of the newly enumerated windows differs from the set of
titles currently shown in the menu; with equal title sets the menu is not
rebuilt. -/
theorem refresh_skips_rebuild_iff_same_titles (actionTitles : List String)
    (newWindows : List WinDesc) :
    refresh_window_list actionTitles newWindows = false ↔
      (∀ t, t ∈ actionTitles ↔ ∃ w, w ∈ newWindows ∧ w.title = t) := by
  have h1 : refresh_window_list actionTitles newWindows = false ↔
      actionTitles.toFinset = (newWindows.map (fun w => w.title)).toFinset := by
    unfold refresh_window_list
    split
    · simp_all
    · simp_all
  rw [h1, Finset.ext_iff]
  constructor
  · intro h t
    have := h t
    simpa [List.mem_toFinset, List.mem_map] using this
  · intro h t
    have := h t
    simpa [List.mem_toFinset, List.mem_map] using this

/-- Witness for C7: with an unchanged title set the menu is not rebuilt. -/
theorem refresh_skips_rebuild_iff_same_titles_witness :
    refresh_window_list ["x"] [⟨1, "x"⟩] = false :=
  (refresh_skips_rebuild_iff_same_titles ["x"] [⟨1, "x"⟩]).mpr
    (by intro t; simp [eq_comm])

/-- C2 counterexample: the capture operation `reparent_window(5, 7)` never
asks the windowing system to show/map window 5, contradicting the claim
that every invocation requests both a reparent and a show/map. -/
theorem capture_requests_no_map_counterexample :
    XRequest.mapWin 5 ∉ (reparent_window_run 5 7 Option.none).requests := by
  decide

/-- C2 (amended): `reparent_window(window_id, container_id)` asks the OS
to reparent the window under the container (at position 0,0, followed by
a display sync), but requests no show/map of the window; making it
visible is left to the GUI toolkit's window container. -/
theorem capture_requests_reparent_only (windowId containerId : Nat) :
    (reparent_window_run windowId containerId Option.none).requests =
      [XRequest.reparent windowId containerId 0 0, XRequest.sync] ∧
    ∀ m, XRequest.mapWin m ∉
      (reparent_window_run windowId containerId Option.none).requests := by
  refine ⟨rfl, ?_⟩
  intro m hm
  simp [reparent_window_run, reparentSteps] at hm

/-- Witness for C2 (amended) at the concrete invocation `(5, 7)`. -/
theorem capture_requests_reparent_only_witness :
    (reparent_window_run 5 7 Option.none).requests =
      [XRequest.reparent 5 7 0 0, XRequest.sync] :=
  (capture_requests_reparent_only 5 7).1

/-- C8: a failure of the underlying platform call inside
`reparent_window` or `handleTabClose` propagates no exception to the
caller; the failure only produces a printed log line. -/
theorem platform_failures_not_propagated :
    (∀ (windowId containerId : Nat) (failAt : Option (Fin 2 × String)),
      (reparent_window_run windowId containerId failAt).raised = Option.none ∧
      (failAt.isSome = true →
        (reparent_window_run windowId containerId failAt).log ≠ [])) ∧
    (∀ (tabs : List Nat) (index rootId : Nat) (failAt : Option (Fin 3 × String)),
      (handleTabClose tabs index rootId failAt).raised = Option.none ∧
      (failAt.isSome = true →
        (handleTabClose tabs index rootId failAt).log ≠ [])) := by
  constructor
  · intro windowId containerId failAt
    cases failAt with
    | none => exact ⟨rfl, by simp⟩
    | some p =>
      obtain ⟨k, msg⟩ := p
      exact ⟨rfl, fun _ => by simp [reparent_window_run]⟩
  · intro tabs index rootId failAt
    cases hw : tabs[index]? with
    | none =>
      refine ⟨by simp [handleTabClose, hw], fun _ => by simp [handleTabClose, hw]⟩
    | some windowId =>
      cases failAt with
      | none => exact ⟨by simp [handleTabClose, hw], by simp⟩
      | some p =>
        obtain ⟨k, msg⟩ := p
        exact ⟨by simp [handleTabClose, hw], fun _ => by simp [handleTabClose, hw]⟩

/-- Witness for C8: concrete failing invocations of both operations log a
line (and, by the theorem, raise nothing). -/
theorem platform_failures_not_propagated_witness :
    (reparent_window_run 1 2 (Option.some (0, "boom"))).log ≠ [] ∧
    (handleTabClose [4] 0 9 (Option.some (1, "boom"))).log ≠ [] :=
  ⟨(platform_failures_not_propagated.1 1 2 (Option.some (0, "boom"))).2 rfl,
   (platform_failures_not_propagated.2 [4] 0 9 (Option.some (1, "boom"))).2 rfl⟩

/-- C5: during a tab-close event on a tab holding a captured window, if
the tab is removed then the trace places the full restore request
sequence (reparent to the desktop root, map, sync) strictly before the
`removeTab` call. -/
theorem tab_close_restore_before_remove (tabs : List Nat) (index rootId : Nat)
    (failAt : Option (Fin 3 × String)) (windowId : Nat)
    (h : tabs[index]? = Option.some windowId)
    (hrm : Event.removeTabEv index ∈ (handleTabClose tabs index rootId failAt).trace) :
    ∃ pre post,
      (handleTabClose tabs index rootId failAt).trace =
        pre ++ Event.removeTabEv index :: post ∧
      Event.xreq (XRequest.reparent windowId rootId 0 0) ∈ pre ∧
      Event.xreq (XRequest.mapWin windowId) ∈ pre ∧
      Event.xreq XRequest.sync ∈ pre := by
  cases failAt with
  | some p =>
    exfalso
    obtain ⟨k, msg⟩ := p
    simp only [handleTabClose, h] at hrm
    have hrm2 := List.take_subset _ _ ((List.map_take Event.xreq (restoreSteps windowId rootId) k.val) ▸ hrm)
    simp [restoreSteps, List.mem_map] at hrm2
  | none =>
    refine ⟨(restoreSteps windowId rootId).map Event.xreq,
            [Event.deleteLaterEv windowId], ?_, ?_, ?_, ?_⟩
    · simp [handleTabClose, h]
    · simp [restoreSteps]
    · simp [restoreSteps]
    · simp [restoreSteps]

/-- Witness for C5 at the concrete close of the only tab, holding window
42, with desktop root 1. -/
theorem tab_close_restore_before_remove_witness :
    ∃ pre post,
      (handleTabClose [42] 0 1 Option.none).trace =
        pre ++ Event.removeTabEv 0 :: post ∧
      Event.xreq (XRequest.reparent 42 1 0 0) ∈ pre ∧
      Event.xreq (XRequest.mapWin 42) ∈ pre ∧
      Event.xreq XRequest.sync ∈ pre :=
  tab_close_restore_before_remove [42] 0 1 Option.none 42 (by decide) (by decide)

/-- C9: if the restore of the underlying window raises during a tab-close
event, the tab list is unchanged, no `removeTab` call occurs and no
container is deleted. -/
theorem restore_failure_leaves_tabs_unchanged (tabs : List Nat) (index rootId : Nat)
    (k : Fin 3) (msg : String) (windowId : Nat)
    (h : tabs[index]? = Option.some windowId) :
    (handleTabClose tabs index rootId (Option.some (k, msg))).tabs = tabs ∧
    (∀ i, Event.removeTabEv i ∉
      (handleTabClose tabs index rootId (Option.some (k, msg))).trace) ∧
    (∀ w, Event.deleteLaterEv w ∉
      (handleTabClose tabs index rootId (Option.some (k, msg))).trace) := by
  refine ⟨by simp [handleTabClose, h], ?_, ?_⟩
  · intro i hmem
    simp only [handleTabClose, h] at hmem
    have hm2 := List.take_subset _ _ ((List.map_take Event.xreq (restoreSteps windowId rootId) k.val) ▸ hmem)
    simp [restoreSteps, List.mem_map] at hm2
  · intro w hmem
    simp only [handleTabClose, h] at hmem
    have hm2 := List.take_subset _ _ ((List.map_take Event.xreq (restoreSteps windowId rootId) k.val) ▸ hmem)
    simp [restoreSteps, List.mem_map] at hm2

/-- Witness for C9: a failing restore while closing the only tab leaves
the tab list `[42]` unchanged. -/
theorem restore_failure_leaves_tabs_unchanged_witness :
    (handleTabClose [42] 0 1 (Option.some (2, "boom"))).tabs = [42] :=
  (restore_failure_leaves_tabs_unchanged [42] 0 1 2 "boom" 42 (by decide)).1

/-- C1: under the X11 invariant that window ids in the tree are distinct,
a successful enumeration returns no descriptor with an empty title and no
descriptor whose id is that of the host application's own window (a
window of WM_CLASS class `"tabCombiner"`). -/
theorem get_window_list_excludes_host_and_unnamed (st : GrabberState) (root : XWindow)
    (hids : ((treeNodes root).map XWindow.wid).Nodup) :
    ∀ d ∈ (get_window_list st (Option.some root)).1,
      d.title ≠ "" ∧
      ∀ w, w ∈ treeNodes root → isHostWindow w = true → d.id ≠ w.wid := by
  intro d hd
  have hd' : d ∈ getWindows root := by
    have he : (get_window_list st (Option.some root)).1 = sortByTitle (getWindows root) := rfl
    rw [he] at hd
    exact (List.mem_insertionSort titleLe).mp hd
  obtain ⟨x, hx, hview, hkeep, hid, hname⟩ := getWindows_origin root d hd'
  obtain ⟨s, hsname, hst⟩ := keepWindow_name hkeep
  have hts : d.title = s := by
    have h2 : WmName.str d.title = WmName.str s := by rw [← hname, hsname]
    exact WmName.str.inj h2
  constructor
  · rw [hts]
    exact strippedTruthy_ne_empty hst
  · intro w hw hhost heq
    obtain ⟨inst, cls, hcls, hne⟩ := keepWindow_class hkeep
    have hwid : XWindow.wid x = XWindow.wid w := by rw [← hid, heq]
    have hxw : x = w := List.inj_on_of_nodup_map hids hx hw hwid
    subst hxw
    rw [isHostWindow, hcls] at hhost
    simp at hhost
    exact hne hhost

/-- A sample capturable window: viewable, class `xterm`, named `hi`. -/
def sampleChild : XWindow :=
  .mk 5 false true (Option.some ("a", "xterm")) (WmName.str "hi") false []

/-- A sample root whose own window is the host's (class `tabCombiner`). -/
def sampleRoot : XWindow :=
  .mk 0 false true (Option.some ("tc", "tabCombiner")) (WmName.str "tc") false [sampleChild]

/-- Witness for C1: the descriptor enumerated from `sampleRoot` has a
non-empty title and is not the host window's. -/
theorem get_window_list_excludes_host_and_unnamed_witness :
    (⟨5, "hi"⟩ : WinDesc).title ≠ "" ∧
    ∀ w, w ∈ treeNodes sampleRoot → isHostWindow w = true →
      (⟨5, "hi"⟩ : WinDesc).id ≠ w.wid :=
  get_window_list_excludes_host_and_unnamed initGrabber sampleRoot
    (by simp [sampleRoot, sampleChild, treeNodes, treeNodesList, XWindow.wid])
    ⟨5, "hi"⟩
    (by simp [get_window_list, sortByTitle, List.mem_insertionSort, sampleRoot,
      sampleChild, getWindows, getWindowsList, keepWindow, truthyName, isStrName,
      nameStr, strippedTruthy, XWindow.attrsFail, XWindow.viewable, XWindow.wmClass,
      XWindow.wmName, XWindow.wid])

/-- C10: under the X11 invariant that window ids in the tree are distinct,
a window whose WM_CLASS is missing, or whose WM_NAME is present but not a
`str` (for example `bytes`), never appears in the returned list. -/
theorem get_window_list_excludes_classless_and_nonstr (st : GrabberState) (root : XWindow)
    (hids : ((treeNodes root).map XWindow.wid).Nodup)
    (w : XWindow) (hw : w ∈ treeNodes root)
    (hbad : w.wmClass = Option.none ∨ ∃ b, w.wmName = WmName.bytes b) :
    ∀ d ∈ (get_window_list st (Option.some root)).1, d.id ≠ w.wid := by
  intro d hd heq
  have hd' : d ∈ getWindows root := by
    have he : (get_window_list st (Option.some root)).1 = sortByTitle (getWindows root) := rfl
    rw [he] at hd
    exact (List.mem_insertionSort titleLe).mp hd
  obtain ⟨x, hx, hview, hkeep, hid, hname⟩ := getWindows_origin root d hd'
  have hwid : XWindow.wid x = XWindow.wid w := by rw [← hid, heq]
  have hxw : x = w := List.inj_on_of_nodup_map hids hx hw hwid
  subst hxw
  rcases hbad with hc | hb
  · obtain ⟨inst, cls, hcls, _⟩ := keepWindow_class hkeep
    rw [hc] at hcls
    exact Option.noConfusion hcls
  · obtain ⟨b, hb⟩ := hb
    obtain ⟨s, hs, _⟩ := keepWindow_name hkeep
    rw [hs] at hb
    exact WmName.noConfusion hb

/-- A sample viewable window with no WM_CLASS. -/
def sampleClassless : XWindow :=
  .mk 7 false true Option.none (WmName.str "q") false []

/-- A sample viewable window passing the filter. -/
def sampleGood : XWindow :=
  .mk 8 false true (Option.some ("c", "term")) (WmName.str "ok") false []

/-- A sample root tree containing the classless window and a kept one. -/
def sampleRoot2 : XWindow :=
  .mk 1 false true (Option.some ("a", "b")) (WmName.str "r") false
    [sampleClassless, sampleGood]

/-- Witness for C10: the one descriptor enumerated from `sampleRoot2` is
not the classless window `7`. -/
theorem get_window_list_excludes_classless_and_nonstr_witness :
    (⟨8, "ok"⟩ : WinDesc).id ≠ XWindow.wid sampleClassless :=
  get_window_list_excludes_classless_and_nonstr initGrabber sampleRoot2
    (by simp [sampleRoot2, sampleClassless, sampleGood, treeNodes, treeNodesList,
      XWindow.wid])
    sampleClassless
    (by simp [sampleRoot2, sampleClassless, sampleGood, treeNodes, treeNodesList])
    (Or.inl rfl)
    ⟨8, "ok"⟩
    (by simp [get_window_list, sortByTitle, List.mem_insertionSort, sampleRoot2,
      sampleClassless, sampleGood, getWindows, getWindowsList, keepWindow, truthyName,
      isStrName, nameStr, strippedTruthy, XWindow.attrsFail, XWindow.viewable,
      XWindow.wmClass, XWindow.wmName, XWindow.wid])
